import Mathlib

/-
Verification of the configuration module of the Hand-Tracking POC
(src/config.py) against its natural-language specification.

The module is a parameter table (class Config, singleton `config`) plus one
routine `print_config` that prints a fixed report.  We embed the parameter
table as a Lean structure with one field per Python class attribute, the
singleton as a concrete value of that structure, and `print_config` as the
pure function from a configuration to the list of lines it prints (Python's
`print` emits one line per call; the embedding collects them in order).
-/

/-- The three proximity states of the specification's BoundaryState enum. -/
inductive BoundaryState where
  | SAFE
  | WARNING
  | DANGER
deriving DecidableEq, Repr

/-- The key under which a state appears in the STATE_COLORS table. -/
def BoundaryState.name : BoundaryState → String
  | .SAFE => "SAFE"
  | .WARNING => "WARNING"
  | .DANGER => "DANGER"

/-- The parameter table of class Config in src/config.py, one field per
class attribute, in source order.  numpy uint8 arrays become lists of
naturals, BGR tuples become triples, float-valued parameters become
rationals, and the STATE_COLORS dict becomes an association list in
source order. -/
structure Config where
  CAMERA_WIDTH : ℕ
  CAMERA_HEIGHT : ℕ
  CAMERA_ID : ℕ
  FPS_TARGET : ℕ
  LOWER_SKIN : List ℕ
  UPPER_SKIN : List ℕ
  USE_YCRCB : Bool
  LOWER_SKIN_YCRCB : List ℕ
  UPPER_SKIN_YCRCB : List ℕ
  BOUNDARY_TYPE : String
  BOUNDARY_X : ℕ
  BOUNDARY_COLOR : ℕ × ℕ × ℕ
  BOUNDARY_THICKNESS : ℕ
  SAFE_DISTANCE : ℕ
  WARNING_DISTANCE : ℕ
  DANGER_DISTANCE : ℕ
  STATE_COLORS : List (String × (ℕ × ℕ × ℕ))
  FONT : ℕ
  FONT_SCALE_LARGE : ℚ
  FONT_SCALE_MEDIUM : ℚ
  FONT_SCALE_SMALL : ℚ
  FONT_THICKNESS_BOLD : ℕ
  FONT_THICKNESS_NORMAL : ℕ
  KERNEL_SIZE : ℕ
  MORPH_ITERATIONS : ℕ
  MIN_CONTOUR_AREA : ℕ
  BLUR_KERNEL_SIZE : ℕ × ℕ
  FPS_BUFFER_SIZE : ℕ
  SHOW_DEBUG_WINDOW : Bool
  PRINT_INTERVAL : ℕ
  PREFER_LOWER_SCREEN : Bool
  LOWER_SCREEN_THRESHOLD : ℚ
  MIRROR_CAMERA : Bool
deriving Repr

/-- The singleton `config = Config()` of src/config.py, with the shipped
values of every class attribute. -/
def config : Config where
  CAMERA_WIDTH := 640
  CAMERA_HEIGHT := 480
  CAMERA_ID := 0
  FPS_TARGET := 8
  LOWER_SKIN := [0, 20, 70]
  UPPER_SKIN := [20, 255, 255]
  USE_YCRCB := false
  LOWER_SKIN_YCRCB := [0, 133, 77]
  UPPER_SKIN_YCRCB := [255, 173, 127]
  BOUNDARY_TYPE := "line"
  BOUNDARY_X := 320
  BOUNDARY_COLOR := (0, 0, 255)
  BOUNDARY_THICKNESS := 3
  SAFE_DISTANCE := 100
  WARNING_DISTANCE := 50
  DANGER_DISTANCE := 50
  STATE_COLORS := [("SAFE", (0, 255, 0)), ("WARNING", (0, 165, 255)),
    ("DANGER", (0, 0, 255))]
  FONT := 0
  FONT_SCALE_LARGE := 12 / 10
  FONT_SCALE_MEDIUM := 8 / 10
  FONT_SCALE_SMALL := 6 / 10
  FONT_THICKNESS_BOLD := 3
  FONT_THICKNESS_NORMAL := 2
  KERNEL_SIZE := 5
  MORPH_ITERATIONS := 2
  MIN_CONTOUR_AREA := 1000
  BLUR_KERNEL_SIZE := (5, 5)
  FPS_BUFFER_SIZE := 30
  SHOW_DEBUG_WINDOW := true
  PRINT_INTERVAL := 30
  PREFER_LOWER_SCREEN := false
  LOWER_SCREEN_THRESHOLD := 4 / 10
  MIRROR_CAMERA := true

/-- The separator `"=" * 50` used by print_config. -/
def sepLine : String := String.mk (List.replicate 50 '=')

/-- The function print_config of src/config.py, embedded as the list of
lines it prints, one list element per `print` call, in program order.
Each f-string is translated interpolation by interpolation; the function
reads only the attributes of the configuration it is given. -/
def print_config (c : Config) : List String :=
  [ sepLine
  , "HAND TRACKING POC - CONFIGURATION"
  , sepLine
  , "Camera: " ++ toString c.CAMERA_WIDTH ++ "x" ++ toString c.CAMERA_HEIGHT
  , "Target FPS: ≥" ++ toString c.FPS_TARGET
  , "Color Space: " ++ (if c.USE_YCRCB then "YCrCb" else "HSV")
  , "Boundary Position: x=" ++ toString c.BOUNDARY_X
  , "\nDistance Thresholds:"
  , "  SAFE:    > " ++ toString c.SAFE_DISTANCE ++ "px"
  , "  WARNING: " ++ toString c.DANGER_DISTANCE ++ "-"
      ++ toString c.SAFE_DISTANCE ++ "px"
  , "  DANGER:  < " ++ toString c.DANGER_DISTANCE ++ "px"
  , sepLine ]

/-- State-passing form of a call to print_config: the body of the Python
function contains only `print` statements and no assignment, so the
configuration state threads through unchanged while the output is
produced; the function body ends without a `return`, i.e. returns None. -/
def print_config_run (c : Config) : Config × List String :=
  (c, print_config c)

/-- Modelled from the spec: the Boundary Evaluator of §4.3 is not in src/
(the repository ships only its thresholds in config.py); its classification
rule over a real distance `d` is taken verbatim from the spec:
distance > SAFE_DISTANCE → SAFE; DANGER_DISTANCE ≤ distance ≤ SAFE_DISTANCE
→ WARNING; distance < DANGER_DISTANCE → DANGER. -/
def ClassRule (safe danger d : ℝ) : BoundaryState → Prop
  | .SAFE => d > safe
  | .WARNING => danger ≤ d ∧ d ≤ safe
  | .DANGER => d < danger

/-- C1: with the configured thresholds (SAFE_DISTANCE = 100,
DANGER_DISTANCE = 50), the classification rule of §4.3 assigns to every
real distance exactly one BoundaryState: the three cases are exhaustive
and mutually exclusive, so the state is a deterministic function of the
distance. -/
theorem classification_exists_unique (d : ℝ) :
    ∃! s : BoundaryState,
      ClassRule (config.SAFE_DISTANCE : ℝ) (config.DANGER_DISTANCE : ℝ) d s := by
  have hS : ((config.SAFE_DISTANCE : ℕ) : ℝ) = 100 := by norm_num [config]
  have hD : ((config.DANGER_DISTANCE : ℕ) : ℝ) = 50 := by norm_num [config]
  rw [hS, hD]
  by_cases h1 : (100 : ℝ) < d
  · refine ⟨.SAFE, h1, ?_⟩
    intro y hy
    cases y with
    | SAFE => rfl
    | WARNING => simp only [ClassRule] at hy; linarith [hy.2]
    | DANGER => simp only [ClassRule] at hy; linarith
  · by_cases h2 : (50 : ℝ) ≤ d
    · refine ⟨.WARNING, ⟨h2, not_lt.mp h1⟩, ?_⟩
      intro y hy
      cases y with
      | SAFE => simp only [ClassRule] at hy; linarith
      | WARNING => rfl
      | DANGER => simp only [ClassRule] at hy; linarith
    · refine ⟨.DANGER, not_le.mp h2, ?_⟩
      intro y hy
      cases y with
      | SAFE => simp only [ClassRule] at hy; linarith
      | WARNING => simp only [ClassRule] at hy; linarith [hy.1]
      | DANGER => rfl

/-- C1 witness: the classification rule settles the concrete distance 75
(inside the WARNING band) on exactly one state. -/
theorem classification_exists_unique_witness :
    ∃! s : BoundaryState,
      ClassRule (config.SAFE_DISTANCE : ℝ) (config.DANGER_DISTANCE : ℝ) 75 s :=
  classification_exists_unique 75

/-- C2: a distance exactly equal to SAFE_DISTANCE (100) and a distance
exactly equal to DANGER_DISTANCE (50) are both classified WARNING by the
§4.3 rule with the configured thresholds: both ends of the WARNING band
are inclusive. -/
theorem boundary_distances_warning :
    ClassRule (config.SAFE_DISTANCE : ℝ) (config.DANGER_DISTANCE : ℝ)
        (config.SAFE_DISTANCE : ℝ) .WARNING
    ∧ ClassRule (config.SAFE_DISTANCE : ℝ) (config.DANGER_DISTANCE : ℝ)
        (config.DANGER_DISTANCE : ℝ) .WARNING := by
  refine ⟨⟨?_, ?_⟩, ?_, ?_⟩ <;> norm_num [config]

/-- C3: print_config emits a fixed sequence of lines determined only by
the Config values: at the shipped config the full report is the explicit
list below (camera "640x480", boundary "x=320", SAFE line "> 100px",
WARNING line "50-100px", DANGER line "< 50px"); for every configuration
the color-space line reads "Color Space: YCrCb" exactly when USE_YCRCB is
true and "Color Space: HSV" exactly when it is false.  The embedding is a
total pure function into a line list, so the routine performs no I/O
besides printing, never raises, and returns None (see print_config_run). -/
theorem print_config_report :
    print_config config =
      [ sepLine
      , "HAND TRACKING POC - CONFIGURATION"
      , sepLine
      , "Camera: 640x480"
      , "Target FPS: ≥8"
      , "Color Space: HSV"
      , "Boundary Position: x=320"
      , "\nDistance Thresholds:"
      , "  SAFE:    > 100px"
      , "  WARNING: 50-100px"
      , "  DANGER:  < 50px"
      , sepLine ]
    ∧ (∀ c : Config,
        ((print_config c)[5]? = some "Color Space: YCrCb" ↔ c.USE_YCRCB = true))
    ∧ (∀ c : Config,
        ((print_config c)[5]? = some "Color Space: HSV" ↔ c.USE_YCRCB = false)) := by
  refine ⟨rfl, ?_, ?_⟩ <;>
    (intro c; cases h : c.USE_YCRCB <;> simp [print_config, h])

/-- C4: the configuration is never mutated: in the state-passing embedding
of print_config (the only operation of the module), the configuration
after the call is the configuration before it, so every attribute keeps
its value. -/
theorem config_unchanged_by_print :
    ∀ c : Config, (print_config_run c).1 = c :=
  fun _ => rfl

/-- C5: print_config is deterministic: two invocations against equal
Config values produce identical output; the output depends on nothing
but the configuration. -/
theorem print_config_deterministic (c₁ c₂ : Config) (h : c₁ = c₂) :
    print_config c₁ = print_config c₂ := by
  rw [h]

/-- C5 witness: two invocations at the shipped config agree. -/
theorem print_config_deterministic_witness :
    print_config config = print_config config :=
  print_config_deterministic config config rfl

/-- C6: STATE_COLORS colors exactly the three BoundaryState names: its
key list is precisely [SAFE, WARNING, DANGER] by name (so no other key is
colored), and every state of the enum has a color entry. -/
theorem state_colors_exactly_states :
    (config.STATE_COLORS).map Prod.fst =
      [BoundaryState.SAFE.name, BoundaryState.WARNING.name,
        BoundaryState.DANGER.name]
    ∧ ∀ s : BoundaryState, ∃ col, (s.name, col) ∈ config.STATE_COLORS := by
  refine ⟨rfl, ?_⟩
  intro s
  cases s with
  | SAFE => exact ⟨(0, 255, 0), by decide⟩
  | WARNING => exact ⟨(0, 165, 255), by decide⟩
  | DANGER => exact ⟨(0, 0, 255), by decide⟩

/-- C7: the configured BOUNDARY_TYPE is one of the admissible boundary
geometries "line", "box", "circle". -/
theorem boundary_type_admissible :
    config.BOUNDARY_TYPE ∈ (["line", "box", "circle"] : List String) := by
  decide

/-- C8: WARNING_DISTANCE equals DANGER_DISTANCE (both 50) in the shipped
config, DANGER_DISTANCE ≤ SAFE_DISTANCE, and print_config never reads
WARNING_DISTANCE: its output is invariant under any change of that field
alone, so WARNING_DISTANCE is redundant with DANGER_DISTANCE for every
observable behavior of the module. -/
theorem warning_distance_redundant :
    config.WARNING_DISTANCE = config.DANGER_DISTANCE
    ∧ config.DANGER_DISTANCE ≤ config.SAFE_DISTANCE
    ∧ ∀ (c : Config) (w : ℕ),
        print_config { c with WARNING_DISTANCE := w } = print_config c := by
  exact ⟨rfl, by decide, fun c w => rfl⟩

/-- C9: componentwise LOWER_SKIN ≤ UPPER_SKIN and LOWER_SKIN_YCRCB ≤
UPPER_SKIN_YCRCB, and every component of the four threshold arrays is at
most 255 (they are naturals, so at least 0): each inclusive channel band
is non-empty and fits in uint8. -/
theorem skin_thresholds_wellformed :
    List.Forall₂ (· ≤ ·) config.LOWER_SKIN config.UPPER_SKIN
    ∧ List.Forall₂ (· ≤ ·) config.LOWER_SKIN_YCRCB config.UPPER_SKIN_YCRCB
    ∧ (config.LOWER_SKIN ++ config.UPPER_SKIN ++ config.LOWER_SKIN_YCRCB
        ++ config.UPPER_SKIN_YCRCB).all (fun x => decide (x ≤ 255)) = true := by
  refine ⟨?_, ?_, by decide⟩ <;> decide

/-- C10: BOUNDARY_X is the horizontal center of the frame: it equals
CAMERA_WIDTH / 2 (320 for the 640-pixel width) and satisfies
0 ≤ BOUNDARY_X < CAMERA_WIDTH. -/
theorem boundary_x_center :
    config.BOUNDARY_X = config.CAMERA_WIDTH / 2
    ∧ 0 ≤ config.BOUNDARY_X
    ∧ config.BOUNDARY_X < config.CAMERA_WIDTH := by
  decide
